import Mathlib

/-! # agro-ecommerce: API route handlers

A shallow embedding of the four API route handlers of the repository

* `pages/api/xendit/webhook.js`
* `pages/api/company_contacts/delete/[id].js`
* `pages/api/term_conditions/update/[id].js`
* `pages/api/register/index.js`

Every handler is a function of the process environment, the request and the
table it touches.  It returns the reply it sends, the table afterwards and the
list of ORM calls it issued, in order.

JavaScript values that may be `undefined` are `Option`s: `none` is `undefined`
(or `null` for the session token).  Request bodies are JSON objects whose
fields are strings or absent.
-/

namespace AgroEcommerce

/-! ## Shared data model -/

/-- The variables the handlers read from `process.env`; `none` is an unset variable. -/
structure Env where
  XENDIT_WEBHOOK_TOKEN : Option String
  ADMIN_EMAIL : Option String
  JWT_SECRET : Option String
  deriving DecidableEq, Repr

/-- Modelled from the spec: the `checkout` table row (the Prisma schema is not among the
sources).  `id` is the external correlation identifier, `status` the payment status the
webhook writes, `other` the remaining columns. -/
structure Checkout where
  id : String
  status : String
  other : List (String × String)
  deriving DecidableEq, Repr

/-- Modelled from the spec: the `companyContact` table row (the Prisma schema is not among
the sources): a primary key and the remaining columns. -/
structure CompanyContact where
  id : String
  fields : List (String × String)
  deriving DecidableEq, Repr

/-- Modelled from the spec: the `termCondition` table row (the Prisma schema is not among
the sources): a primary key, the two columns the update handler writes, and the rest. -/
structure TermCondition where
  id : String
  title : String
  content : String
  other : List (String × String)
  deriving DecidableEq, Repr

/-- Modelled from the spec: the `user` table row (the Prisma schema is not among the
sources): the generated primary key and the four columns the register handler writes. -/
structure User where
  id : String
  name : String
  email : String
  password : String
  role : String
  deriving DecidableEq, Repr

/-- The two ways a Prisma call on a unique `where` fails without touching the table. -/
inductive PrismaError where
  | validation
  | recordNotFound
  deriving DecidableEq, Repr

/-- One ORM call, as the handlers issue them. -/
inductive DbOp where
  | checkoutUpdate (id : Option String) (status : String)
  | companyContactDelete (id : String)
  | termConditionUpdate (id : String) (title content : String)
  | userFindFirst (email : String)
  | userCreate (name email password role : String)
  deriving DecidableEq, Repr

/-- What `res.status(code).json(body)` (or `.end()`) sends. -/
structure Reply (β : Type) where
  status : Nat
  body : β
  deriving DecidableEq, Repr

/-- The effect of running a handler: the reply, the table afterwards, the ORM calls issued. -/
structure Outcome (ρ σ : Type) where
  reply : ρ
  db : σ
  ops : List DbOp
  deriving DecidableEq, Repr

/-- The decoded session token `getToken` returns; `role` may be missing from the payload. -/
structure Token where
  role : Option String
  deriving DecidableEq, Repr

/-! ## The ORM calls -/

namespace prisma

/-- The row with primary key `k`, if any. -/
def checkout.findById (db : List Checkout) (k : String) : Option Checkout :=
  db.find? (fun c => decide (c.id = k))

/-- The row-level effect of `UPDATE checkout SET status = st WHERE id = k`. -/
def checkout.setStatus (k st : String) (c : Checkout) : Checkout :=
  if c.id = k then { c with status := st } else c

/-- Modelled from the spec: the call `prisma.checkout.update({ where: { id }, data: { status } })`
of the ORM client (`@/prisma/prisma`, not among the sources): an `undefined` id is a
validation error, an id of no row is a record-not-found error, and otherwise the
status of the row with that id is overwritten and the updated row returned. -/
def checkout.update (db : List Checkout) (id : Option String) (status : String) :
    Except PrismaError (Checkout × List Checkout) :=
  match id with
  | none => .error .validation
  | some k =>
    match checkout.findById db k with
    | none => .error .recordNotFound
    | some c => .ok ({ c with status := status }, db.map (checkout.setStatus k status))

/-- Modelled from the spec: the call `prisma.companyContact.delete({ where: { id } })` of the
ORM client (`@/prisma/prisma`, not among the sources): the row with that id is
removed and returned; an id of no row is a record-not-found error. -/
def companyContact.delete (db : List CompanyContact) (id : String) :
    Except PrismaError (CompanyContact × List CompanyContact) :=
  match db.find? (fun c => decide (c.id = id)) with
  | none => .error .recordNotFound
  | some c => .ok (c, db.filter (fun r => decide (r.id ≠ id)))

/-- The row-level effect of `UPDATE termCondition SET title, content WHERE id = k`. -/
def termCondition.setText (k title content : String) (t : TermCondition) : TermCondition :=
  if t.id = k then { t with title := title, content := content } else t

/-- Modelled from the spec: the call
`prisma.termCondition.update({ where: { id }, data: { title, content } })` of the ORM client
(`@/prisma/prisma`, not among the sources): the two columns of the row with that id are
overwritten and the updated row returned; an id of no row is a record-not-found error. -/
def termCondition.update (db : List TermCondition) (id title content : String) :
    Except PrismaError (TermCondition × List TermCondition) :=
  match db.find? (fun t => decide (t.id = id)) with
  | none => .error .recordNotFound
  | some t =>
    .ok ({ t with title := title, content := content },
      db.map (termCondition.setText id title content))

/-- Modelled from the spec: the call `prisma.user.findFirst({ where: { email } })` of the ORM
client (`@/prisma/prisma`, not among the sources): the first row with exactly that email. -/
def user.findFirst (db : List User) (email : String) : Option User :=
  db.find? (fun u => decide (u.email = email))

/-- Modelled from the spec: the call `prisma.user.create({ data })` of the ORM client
(`@/prisma/prisma`, not among the sources): the new row, with the key the database
generated for it, is added to the table and returned. -/
def user.create (db : List User) (newId name email password role : String) :
    User × List User :=
  let user : User := { id := newId, name := name, email := email, password := password, role := role }
  (user, db ++ [user])

end prisma

/-! ## `pages/api/xendit/webhook.js` -/

namespace Xendit.Webhook

/-- The JSON body `{ external_id, status }`; either field may be absent. -/
structure Body where
  external_id : Option String
  status : Option String
  deriving DecidableEq, Repr

/-- The parts of the request the handler reads; `xCallbackToken` is
`req.headers["x-callback-token"]`, `none` when the header is absent. -/
structure Request where
  method : String
  xCallbackToken : Option String
  body : Body
  deriving DecidableEq, Repr

/-- The JSON documents the handler sends. -/
inductive ResBody where
  | message (message : String)
  | updated (checkout : Checkout) (message : String)
  | error (error : PrismaError)
  deriving DecidableEq, Repr

/-- The status the handler writes: `status === "SETTLED" ? "PAID" : "UNPAID"`. -/
def newStatus (status : Option String) : String :=
  if status = some "SETTLED" then "PAID" else "UNPAID"

/-- The default export of `pages/api/xendit/webhook.js`. -/
def handler (env : Env) (req : Request) (db : List Checkout) :
    Outcome (Reply ResBody) (List Checkout) :=
  if req.method ≠ "POST" then
    ⟨⟨405, .message "Method not allowed"⟩, db, []⟩
  else
    let xCallbackToken := req.xCallbackToken
    if xCallbackToken ≠ env.XENDIT_WEBHOOK_TOKEN then
      ⟨⟨401, .message "Unauthorized"⟩, db, []⟩
    else
      let external_id := req.body.external_id
      let status := req.body.status
      let call := DbOp.checkoutUpdate external_id (newStatus status)
      match prisma.checkout.update db external_id (newStatus status) with
      | .ok (checkout, db') => ⟨⟨200, .updated checkout "Payment status updated"⟩, db', [call]⟩
      | .error error => ⟨⟨500, .error error⟩, db, [call]⟩

end Xendit.Webhook

/-! ## The two admin endpoints -/

/-- The test `!token || token.role !== "ADMIN"` both admin handlers apply to what
`getToken` returned (`none` is `null`: no session cookie, or one that does not decode). -/
def notAdmin (token : Option Token) : Bool :=
  match token with
  | none => true
  | some token => decide (token.role ≠ some "ADMIN")

/-- The test `!x` on a body field that is a string or absent. -/
def falsy (x : Option String) : Bool :=
  match x with
  | none => true
  | some s => decide (s = "")

namespace CompanyContacts.Delete

/-- The parts of the request the handler reads: the method, what `getToken` returns for
the request, and `req.query.id`. -/
structure Request where
  method : String
  token : Option Token
  id : String
  deriving DecidableEq, Repr

/-- What the handler sends: nothing (`.end()`), an error document, or the deleted row. -/
inductive ResBody where
  | empty
  | error (error : String)
  | contact (contact : CompanyContact)
  deriving DecidableEq, Repr

/-- The default export of `pages/api/company_contacts/delete/[id].js`. -/
def handler (req : Request) (db : List CompanyContact) :
    Outcome (Reply ResBody) (List CompanyContact) :=
  if req.method ≠ "DELETE" then
    ⟨⟨405, .empty⟩, db, []⟩
  else
    let token := req.token
    if notAdmin token then
      ⟨⟨401, .error "Unauthorized"⟩, db, []⟩
    else
      let id := req.id
      match prisma.companyContact.delete db id with
      | .ok (contact, db') => ⟨⟨200, .contact contact⟩, db', [.companyContactDelete id]⟩
      | .error _ => ⟨⟨500, .error "Internal server error"⟩, db, [.companyContactDelete id]⟩

end CompanyContacts.Delete

namespace TermConditions.Update

/-- The JSON body `{ title, content }`; either field may be absent. -/
structure Body where
  title : Option String
  content : Option String
  deriving DecidableEq, Repr

/-- The parts of the request the handler reads: the method, what `getToken` returns for
the request, `req.query.id` and the body. -/
structure Request where
  method : String
  token : Option Token
  id : String
  body : Body
  deriving DecidableEq, Repr

/-- What the handler sends: nothing (`.end()`), a message, an error, or the updated row. -/
inductive ResBody where
  | empty
  | message (message : String)
  | error (error : String)
  | termCondition (termCondition : TermCondition)
  deriving DecidableEq, Repr

/-- The default export of `pages/api/term_conditions/update/[id].js`. -/
def handler (req : Request) (db : List TermCondition) :
    Outcome (Reply ResBody) (List TermCondition) :=
  if req.method ≠ "PUT" then
    ⟨⟨405, .empty⟩, db, []⟩
  else
    let token := req.token
    if notAdmin token then
      ⟨⟨401, .message "Unauthorized"⟩, db, []⟩
    else
      let id := req.id
      match req.body.title, req.body.content with
      | some title, some content =>
        if title = "" ∨ content = "" then
          ⟨⟨400, .error "Title and content are required"⟩, db, []⟩
        else
          match prisma.termCondition.update db id title content with
          | .ok (termCondition, db') =>
            ⟨⟨200, .termCondition termCondition⟩, db', [.termConditionUpdate id title content]⟩
          | .error _ =>
            ⟨⟨500, .error "Internal server error"⟩, db, [.termConditionUpdate id title content]⟩
      | _, _ => ⟨⟨400, .error "Title and content are required"⟩, db, []⟩

end TermConditions.Update

/-! ## `pages/api/register/index.js` -/

namespace Register

/-- The property `.length` of a JavaScript string: its number of UTF-16 code units, two
for every character outside the basic multilingual plane. -/
def length (s : String) : Nat :=
  (s.data.map (fun c => if c.toNat < 65536 then 1 else 2)).sum

/-- The class `[A-Za-z]`. -/
def isLetter (c : Char) : Bool :=
  ('A' ≤ c && c ≤ 'Z') || ('a' ≤ c && c ≤ 'z')

/-- The class `\d`, which in JavaScript is `[0-9]`. -/
def isDigit (c : Char) : Bool :=
  '0' ≤ c && c ≤ '9'

/-- The class `[A-Za-z\d]`. -/
def isLetterOrDigit (c : Char) : Bool :=
  isLetter c || isDigit c

/-- The characters `.` does not match: the JavaScript line terminators. -/
def isLineTerminator (c : Char) : Bool :=
  c = '\n' || c = '\r' || c.toNat = 0x2028 || c.toNat = 0x2029

/-- The lookahead body `.*X` tried at the head of the input: some run of characters that
are not line terminators, then a character of the class `X`. -/
def dotStarThen (X : Char → Bool) : List Char → Bool
  | [] => false
  | c :: cs => X c || (!isLineTerminator c && dotStarThen X cs)

/-- The call `passwordRegex.test(password)` for
`/^(?=.*[A-Za-z])(?=.*\d)[A-Za-z\d]+$/`: both lookaheads succeed at the start, and the
whole input is one or more characters of `[A-Za-z\d]`. -/
def passwordRegexTest (password : String) : Bool :=
  dotStarThen isLetter password.data && dotStarThen isDigit password.data
    && (!password.data.isEmpty && password.data.all isLetterOrDigit)

/-- The template literal `${x}` of a value that is a string or `undefined`. -/
def templateLiteral (x : Option String) : String :=
  match x with
  | none => "undefined"
  | some s => s

/-- The method call `s.endsWith(t)`. -/
def endsWith (s t : String) : Bool :=
  t.data.isSuffixOf s.data

/-- What the libraries and the database choose during one call: the salt `argon2.hash`
draws and the text it encodes after the `$argon2` that starts every hash, the key the
database generates for the new row, and the token `jwt.sign` encodes for a secret and a
user id. -/
structure Runtime where
  salt : String
  argon2Encoded : String → String → String
  newId : String
  jwtEncoded : String → String → String

/-- The library call `argon2.hash(password)`: a string in PHC format, which starts
`$argon2`. -/
def argon2.hash (rt : Runtime) (password : String) : String :=
  "$argon2" ++ rt.argon2Encoded rt.salt password

/-- The library call `jwt.sign({ id }, secretOrPrivateKey, { expiresIn: "1d" })` of
`jsonwebtoken`, which throws when the secret is `undefined` or empty. -/
def jwt.sign (rt : Runtime) (id : String) (secretOrPrivateKey : Option String) :
    Except String String :=
  match secretOrPrivateKey with
  | none => .error "secretOrPrivateKey must have a value"
  | some secret =>
    if secret = "" then .error "secretOrPrivateKey must have a value"
    else .ok (rt.jwtEncoded secret id)

/-- The JSON body `{ name, email, password }`; any field may be absent. -/
structure Body where
  name : Option String
  email : Option String
  password : Option String
  deriving DecidableEq, Repr

/-- The parts of the request the handler reads. -/
structure Request where
  method : String
  body : Body
  deriving DecidableEq, Repr

/-- The JSON documents the handler sends. -/
inductive ResBody where
  | message (message : String)
  | registered (user : User) (token : String)
  deriving DecidableEq, Repr

/-- The default export of `pages/api/register/index.js`.  The reply is `.error e` when the
handler throws `e` instead of sending one. -/
def handler (env : Env) (rt : Runtime) (req : Request) (db : List User) :
    Outcome (Except String (Reply ResBody)) (List User) :=
  if req.method ≠ "POST" then
    ⟨.ok ⟨405, .message "Method not allowed"⟩, db, []⟩
  else
    match req.body.name, req.body.email, req.body.password with
    | some name, some email, some password =>
      if name = "" ∨ email = "" ∨ password = "" then
        ⟨.ok ⟨400, .message "All fields are required"⟩, db, []⟩
      else if length password < 6 ∨ length password > 20 then
        ⟨.ok ⟨400, .message "Password must be between 6 and 20 characters"⟩, db, []⟩
      else if !passwordRegexTest password then
        ⟨.ok ⟨400, .message "Password must contain both letters and numbers"⟩, db, []⟩
      else
        match prisma.user.findFirst db email with
        | some _ =>
          ⟨.ok ⟨409, .message "User already exists"⟩, db, [.userFindFirst email]⟩
        | none =>
          let isAdminEmail := endsWith email (templateLiteral env.ADMIN_EMAIL)
          let role := if isAdminEmail then "ADMIN" else "USER"
          let hashedPassword := argon2.hash rt password
          let created := prisma.user.create db rt.newId name email hashedPassword role
          let ops := [.userFindFirst email, .userCreate name email hashedPassword role]
          match jwt.sign rt created.1.id env.JWT_SECRET with
          | .ok token => ⟨.ok ⟨201, .registered created.1 token⟩, created.2, ops⟩
          | .error e => ⟨.error e, created.2, ops⟩
    | _, _, _ => ⟨.ok ⟨400, .message "All fields are required"⟩, db, []⟩

end Register

/-! ## Tables and requests used as concrete inputs -/

/-- A table of two orders, both unpaid. -/
def sampleOrders : List Checkout :=
  [⟨"ord-1", "UNPAID", [("total", "150000")]⟩, ⟨"ord-2", "UNPAID", [("total", "90000")]⟩]

/-- A deployment with every variable set. -/
def sampleEnv : Env :=
  ⟨some "s3cret", some "@agrokoi.com", some "jwt-key"⟩

/-- A deployment with no variable set. -/
def emptyEnv : Env :=
  ⟨none, none, none⟩

/-- A deployment that sets the admin address but no JWT secret. -/
def noJwtEnv : Env :=
  ⟨some "s3cret", some "@agrokoi.com", none⟩

/-- A deployment whose admin address is the empty string. -/
def emptyAdminEnv : Env :=
  ⟨some "s3cret", some "", some "jwt-key"⟩

/-- One run of the libraries: a fixed salt and key, and encoders that only concatenate. -/
def sampleRuntime : Register.Runtime :=
  ⟨"c2FsdA", fun salt password => "id$" ++ salt ++ "$" ++ password, "user-7",
    fun secret id => secret ++ "." ++ id⟩

/-- A table of two company contacts. -/
def sampleContacts : List CompanyContact :=
  [⟨"cc-1", [("phone", "0811")]⟩, ⟨"cc-2", [("phone", "0822")]⟩]

/-- A table of one terms-and-conditions entry. -/
def sampleTerms : List TermCondition :=
  [⟨"tc-1", "Pengiriman", "Ikan dikirim dalam 2 hari", []⟩]

/-- A table holding one registered user. -/
def sampleUsers : List User :=
  [⟨"user-1", "Sari", "sari@example.com", "$argon2id$x", "USER"⟩]

/-- A registration whose password has 4 characters and JavaScript length 6. -/
def shortEmojiRegistration : Register.Request :=
  ⟨"POST", ⟨some "Budi", some "budi@example.com", some "a1😀😀"⟩⟩

/-- A registration whose password has 11 characters and JavaScript length 22. -/
def longEmojiRegistration : Register.Request :=
  ⟨"POST", ⟨some "Budi", some "budi@example.com", some "😀😀😀😀😀😀😀😀😀😀😀"⟩⟩

/-- A well-formed registration of a new address. -/
def sampleRegistration : Register.Request :=
  ⟨"POST", ⟨some "Budi", some "budi@example.com", some "koi2024"⟩⟩

end AgroEcommerce

/-! ## Facts about the ORM calls -/

namespace AgroEcommerce

theorem newStatus_settled : Xendit.Webhook.newStatus (some "SETTLED") = "PAID" := by
  simp [Xendit.Webhook.newStatus]

theorem newStatus_other (s : Option String) (hs : s ≠ some "SETTLED") :
    Xendit.Webhook.newStatus s = "UNPAID" := by
  simp [Xendit.Webhook.newStatus, hs]

theorem findById_id {db : List Checkout} {k : String} {c : Checkout}
    (h : prisma.checkout.findById db k = some c) : c.id = k := by
  have := List.find?_some h
  simpa using this

theorem findById_eq_none {db : List Checkout} {k : String} :
    prisma.checkout.findById db k = none ↔ ∀ c ∈ db, c.id ≠ k := by
  simp [prisma.checkout.findById]

theorem setStatus_id (k st : String) (c : Checkout) :
    (prisma.checkout.setStatus k st c).id = c.id := by
  unfold prisma.checkout.setStatus
  split <;> rfl

theorem findById_map_setStatus_any (db : List Checkout) (k st j : String) :
    prisma.checkout.findById (db.map (prisma.checkout.setStatus k st)) j
      = (prisma.checkout.findById db j).map (prisma.checkout.setStatus k st) := by
  induction db with
  | nil => rfl
  | cons c rest ih =>
    simp only [prisma.checkout.findById] at ih
    by_cases h : c.id = j
    · simp [prisma.checkout.findById, setStatus_id, h]
    · simp [prisma.checkout.findById, setStatus_id, h, ih]

theorem findById_map_setStatus (db : List Checkout) (k st : String) :
    prisma.checkout.findById (db.map (prisma.checkout.setStatus k st)) k
      = (prisma.checkout.findById db k).map (fun c => { c with status := st }) := by
  rw [findById_map_setStatus_any]
  cases h : prisma.checkout.findById db k with
  | none => rfl
  | some c => simp [prisma.checkout.setStatus, findById_id h]

theorem findById_map_setStatus_of_ne (db : List Checkout) (k st j : String) (hj : j ≠ k) :
    prisma.checkout.findById (db.map (prisma.checkout.setStatus k st)) j
      = prisma.checkout.findById db j := by
  rw [findById_map_setStatus_any]
  cases h : prisma.checkout.findById db j with
  | none => rfl
  | some c =>
    have hc : ¬ c.id = k := fun e => hj ((findById_id h).symm.trans e)
    simp [prisma.checkout.setStatus, hc]

theorem setStatus_setStatus (k st st' : String) (c : Checkout) :
    prisma.checkout.setStatus k st' (prisma.checkout.setStatus k st c)
      = prisma.checkout.setStatus k st' c := by
  by_cases h : c.id = k <;> simp [prisma.checkout.setStatus, h]

theorem map_setStatus_map_setStatus (db : List Checkout) (k st st' : String) :
    (db.map (prisma.checkout.setStatus k st)).map (prisma.checkout.setStatus k st')
      = db.map (prisma.checkout.setStatus k st') := by
  simp [List.map_map, Function.comp_def, setStatus_setStatus]

theorem update_of_find {db : List Checkout} {k : String} {c : Checkout} (st : String)
    (h : prisma.checkout.findById db k = some c) :
    prisma.checkout.update db (some k) st
      = .ok ({ c with status := st }, db.map (prisma.checkout.setStatus k st)) := by
  simp [prisma.checkout.update, h]

theorem update_of_no_match {db : List Checkout} {id : Option String} (st : String)
    (h : ∀ c ∈ db, some c.id ≠ id) :
    ∃ e, prisma.checkout.update db id st = .error e := by
  cases id with
  | none => exact ⟨.validation, rfl⟩
  | some k =>
    have hk : prisma.checkout.findById db k = none :=
      findById_eq_none.mpr (fun c hc e => h c hc (by rw [e]))
    exact ⟨.recordNotFound, by simp [prisma.checkout.update, hk]⟩

/-- An accepted call on an existing order: the whole outcome. -/
theorem webhook_handler_accepted {env : Env} {req : Xendit.Webhook.Request}
    {db : List Checkout} {k : String} {c : Checkout}
    (hm : req.method = "POST") (ht : req.xCallbackToken = env.XENDIT_WEBHOOK_TOKEN)
    (hid : req.body.external_id = some k) (hc : prisma.checkout.findById db k = some c) :
    Xendit.Webhook.handler env req db
      = ⟨⟨200, .updated { c with status := Xendit.Webhook.newStatus req.body.status }
            "Payment status updated"⟩,
          db.map (prisma.checkout.setStatus k (Xendit.Webhook.newStatus req.body.status)),
          [.checkoutUpdate (some k) (Xendit.Webhook.newStatus req.body.status)]⟩ := by
  simp [Xendit.Webhook.handler, hm, ht, hid, update_of_find _ hc]

/-! ## The payment webhook -/

/-- With a webhook secret configured, a POST whose `x-callback-token` header is absent or
differs from it is answered 401 and touches nothing. -/
theorem webhook_rejects_when_secret_set (env : Env) (req : Xendit.Webhook.Request)
    (db : List Checkout) (secret : String) (hm : req.method = "POST")
    (hs : env.XENDIT_WEBHOOK_TOKEN = some secret) (ht : req.xCallbackToken ≠ some secret) :
    Xendit.Webhook.handler env req db = ⟨⟨401, .message "Unauthorized"⟩, db, []⟩ := by
  simp [Xendit.Webhook.handler, hm, hs, ht]

/-- C1, at the input where the code departs from it: with `XENDIT_WEBHOOK_TOKEN` unset, a
POST that carries no `x-callback-token` header at all is not answered 401; it is accepted
with 200 and the order it names is marked `PAID`. -/
theorem webhook_unset_secret_accepts_missing_header :
    (Xendit.Webhook.handler emptyEnv ⟨"POST", none, ⟨some "ord-1", some "SETTLED"⟩⟩
        sampleOrders).reply.status = 200 ∧
      (Xendit.Webhook.handler emptyEnv ⟨"POST", none, ⟨some "ord-1", some "SETTLED"⟩⟩
        sampleOrders).db ≠ sampleOrders ∧
      (prisma.checkout.findById
        (Xendit.Webhook.handler emptyEnv ⟨"POST", none, ⟨some "ord-1", some "SETTLED"⟩⟩
          sampleOrders).db "ord-1").map Checkout.status = some "PAID" := by
  decide

/-- C2: a POST that carries the configured secret and names an existing order is answered
200 with `{checkout: <the updated row>, message: "Payment status updated"}`; the row stored
under that id afterwards is the returned one, and its status is `PAID` when the body's
status is exactly `"SETTLED"` and `UNPAID` for every other value, a missing one included. -/
theorem webhook_accepted_sets_status (env : Env) (req : Xendit.Webhook.Request)
    (db : List Checkout) (k : String) (c : Checkout)
    (hm : req.method = "POST") (ht : req.xCallbackToken = env.XENDIT_WEBHOOK_TOKEN)
    (hid : req.body.external_id = some k) (hc : prisma.checkout.findById db k = some c) :
    ∃ updated : Checkout,
      (Xendit.Webhook.handler env req db).reply
          = ⟨200, .updated updated "Payment status updated"⟩ ∧
        prisma.checkout.findById (Xendit.Webhook.handler env req db).db k = some updated ∧
        updated.id = k ∧ updated.other = c.other ∧
        (req.body.status = some "SETTLED" → updated.status = "PAID") ∧
        (req.body.status ≠ some "SETTLED" → updated.status = "UNPAID") := by
  have hk : c.id = k := findById_id hc
  refine ⟨{ c with status := Xendit.Webhook.newStatus req.body.status }, ?_, ?_,
    hk, rfl, ?_, ?_⟩
  · rw [webhook_handler_accepted hm ht hid hc]
  · rw [webhook_handler_accepted hm ht hid hc]
    simp [findById_map_setStatus, hc]
  · intro h
    simp [h, newStatus_settled]
  · intro h
    simp [newStatus_other _ h]

/-- C2 at a concrete input: a `SETTLED` notification for `ord-2`. -/
theorem webhook_accepted_sets_status_witness :
    ∃ updated : Checkout,
      (Xendit.Webhook.handler sampleEnv
          ⟨"POST", some "s3cret", ⟨some "ord-2", some "SETTLED"⟩⟩ sampleOrders).reply
          = ⟨200, .updated updated "Payment status updated"⟩ ∧
        prisma.checkout.findById (Xendit.Webhook.handler sampleEnv
          ⟨"POST", some "s3cret", ⟨some "ord-2", some "SETTLED"⟩⟩ sampleOrders).db "ord-2"
          = some updated ∧
        updated.id = "ord-2" ∧ updated.other = [("total", "90000")] ∧
        ((some "SETTLED" : Option String) = some "SETTLED" → updated.status = "PAID") ∧
        ((some "SETTLED" : Option String) ≠ some "SETTLED" → updated.status = "UNPAID") :=
  webhook_accepted_sets_status sampleEnv
    ⟨"POST", some "s3cret", ⟨some "ord-2", some "SETTLED"⟩⟩ sampleOrders "ord-2"
    ⟨"ord-2", "UNPAID", [("total", "90000")]⟩ rfl rfl rfl (by decide)

/-- C3: an accepted call issues exactly one ORM call, the update of the order named by
`external_id`; row by row, the table afterwards has the same ids and the same other
columns as before, and every row whose id is not `external_id` is the same row. -/
theorem webhook_accepted_frame (env : Env) (req : Xendit.Webhook.Request)
    (db : List Checkout) (k : String) (c : Checkout)
    (hm : req.method = "POST") (ht : req.xCallbackToken = env.XENDIT_WEBHOOK_TOKEN)
    (hid : req.body.external_id = some k) (hc : prisma.checkout.findById db k = some c) :
    (∃ st, (Xendit.Webhook.handler env req db).ops = [DbOp.checkoutUpdate (some k) st]) ∧
      List.Forall₂
        (fun before after : Checkout =>
          after.id = before.id ∧ after.other = before.other ∧
            (before.id ≠ k → after = before))
        db (Xendit.Webhook.handler env req db).db ∧
      ∀ j, j ≠ k →
        prisma.checkout.findById (Xendit.Webhook.handler env req db).db j
          = prisma.checkout.findById db j := by
  rw [webhook_handler_accepted hm ht hid hc]
  refine ⟨⟨_, rfl⟩, ?_, fun j hj => findById_map_setStatus_of_ne db k _ j hj⟩
  simp only [List.forall₂_map_right_iff]
  refine List.forall₂_same.mpr (fun x _ => ?_)
  by_cases h : x.id = k <;> simp [prisma.checkout.setStatus, h]

/-- C3 at a concrete input: a `SETTLED` notification for `ord-1`. -/
theorem webhook_accepted_frame_witness :
    (∃ st, (Xendit.Webhook.handler sampleEnv
        ⟨"POST", some "s3cret", ⟨some "ord-1", some "SETTLED"⟩⟩ sampleOrders).ops
        = [DbOp.checkoutUpdate (some "ord-1") st]) ∧
      List.Forall₂
        (fun before after : Checkout =>
          after.id = before.id ∧ after.other = before.other ∧
            (before.id ≠ "ord-1" → after = before))
        sampleOrders (Xendit.Webhook.handler sampleEnv
          ⟨"POST", some "s3cret", ⟨some "ord-1", some "SETTLED"⟩⟩ sampleOrders).db ∧
      ∀ j, j ≠ "ord-1" →
        prisma.checkout.findById (Xendit.Webhook.handler sampleEnv
          ⟨"POST", some "s3cret", ⟨some "ord-1", some "SETTLED"⟩⟩ sampleOrders).db j
          = prisma.checkout.findById sampleOrders j :=
  webhook_accepted_frame sampleEnv
    ⟨"POST", some "s3cret", ⟨some "ord-1", some "SETTLED"⟩⟩ sampleOrders "ord-1"
    ⟨"ord-1", "UNPAID", [("total", "150000")]⟩ rfl rfl rfl (by decide)

/-- C4: a request whose method is not POST is answered 405 "Method not allowed", with no
ORM call and the table untouched, whatever its secret header and body are. -/
theorem webhook_non_post (env : Env) (req : Xendit.Webhook.Request) (db : List Checkout)
    (hm : req.method ≠ "POST") :
    (Xendit.Webhook.handler env req db).reply = ⟨405, .message "Method not allowed"⟩ ∧
      (Xendit.Webhook.handler env req db).ops = [] ∧
      (Xendit.Webhook.handler env req db).db = db := by
  simp [Xendit.Webhook.handler, hm]

/-- C4 at a concrete input: a GET with a wrong secret gets 405, not 401. -/
theorem webhook_non_post_witness :
    (Xendit.Webhook.handler sampleEnv
        ⟨"GET", some "wrong", ⟨some "ord-1", some "SETTLED"⟩⟩ sampleOrders).reply
        = ⟨405, .message "Method not allowed"⟩ ∧
      (Xendit.Webhook.handler sampleEnv
        ⟨"GET", some "wrong", ⟨some "ord-1", some "SETTLED"⟩⟩ sampleOrders).ops = [] ∧
      (Xendit.Webhook.handler sampleEnv
        ⟨"GET", some "wrong", ⟨some "ord-1", some "SETTLED"⟩⟩ sampleOrders).db
        = sampleOrders :=
  webhook_non_post sampleEnv ⟨"GET", some "wrong", ⟨some "ord-1", some "SETTLED"⟩⟩
    sampleOrders (by decide)

/-- C5: a POST that carries the configured secret and whose `external_id` is the id of no
order (or is missing) is answered 500 with an `error` field, and the table is unchanged. -/
theorem webhook_unknown_order (env : Env) (req : Xendit.Webhook.Request)
    (db : List Checkout)
    (hm : req.method = "POST") (ht : req.xCallbackToken = env.XENDIT_WEBHOOK_TOKEN)
    (hid : ∀ c ∈ db, some c.id ≠ req.body.external_id) :
    (∃ e, (Xendit.Webhook.handler env req db).reply = ⟨500, .error e⟩) ∧
      (Xendit.Webhook.handler env req db).db = db := by
  obtain ⟨e, he⟩ := update_of_no_match (Xendit.Webhook.newStatus req.body.status) hid
  simp [Xendit.Webhook.handler, hm, ht, he]

/-- C5 at a concrete input: a `SETTLED` notification for an order that does not exist. -/
theorem webhook_unknown_order_witness :
    (∃ e, (Xendit.Webhook.handler sampleEnv
        ⟨"POST", some "s3cret", ⟨some "ord-9", some "SETTLED"⟩⟩ sampleOrders).reply
        = ⟨500, .error e⟩) ∧
      (Xendit.Webhook.handler sampleEnv
        ⟨"POST", some "s3cret", ⟨some "ord-9", some "SETTLED"⟩⟩ sampleOrders).db
        = sampleOrders :=
  webhook_unknown_order sampleEnv ⟨"POST", some "s3cret", ⟨some "ord-9", some "SETTLED"⟩⟩
    sampleOrders rfl rfl (by decide)

/-- A call that does not end in 200 leaves the table as it was. -/
theorem webhook_db_of_not_200 (env : Env) (req : Xendit.Webhook.Request) (db : List Checkout)
    (h : (Xendit.Webhook.handler env req db).reply.status ≠ 200) :
    (Xendit.Webhook.handler env req db).db = db := by
  by_cases hm : req.method = "POST"
  · by_cases ht : req.xCallbackToken = env.XENDIT_WEBHOOK_TOKEN
    · revert h
      simp only [Xendit.Webhook.handler, hm, ht]
      cases prisma.checkout.update db req.body.external_id
        (Xendit.Webhook.newStatus req.body.status) <;> simp
    · simp [Xendit.Webhook.handler, hm, ht]
  · simp [Xendit.Webhook.handler, hm]

/-- C6: delivering the same notification twice in a row gives the same reply, the same
table and the same ORM call the second time as the first; this holds for every request,
so in particular for every POST with the valid secret and status `"SETTLED"`, and for
every other fixed status value. -/
theorem webhook_idempotent (env : Env) (req : Xendit.Webhook.Request) (db : List Checkout) :
    Xendit.Webhook.handler env req (Xendit.Webhook.handler env req db).db
      = Xendit.Webhook.handler env req db := by
  by_cases hm : req.method = "POST"
  · by_cases ht : req.xCallbackToken = env.XENDIT_WEBHOOK_TOKEN
    · cases hid : req.body.external_id with
      | none => simp [Xendit.Webhook.handler, hm, ht, hid, prisma.checkout.update]
      | some k =>
        cases hc : prisma.checkout.findById db k with
        | none =>
          simp [Xendit.Webhook.handler, hm, ht, hid, prisma.checkout.update, hc]
        | some c =>
          have hc' : prisma.checkout.findById
              (db.map (prisma.checkout.setStatus k (Xendit.Webhook.newStatus req.body.status))) k
              = some { c with status := Xendit.Webhook.newStatus req.body.status } := by
            simp [findById_map_setStatus, hc]
          rw [webhook_handler_accepted hm ht hid hc, webhook_handler_accepted hm ht hid hc',
            map_setStatus_map_setStatus]
    · rw [webhook_db_of_not_200]
      simp [Xendit.Webhook.handler, hm, ht]
  · rw [webhook_db_of_not_200]
    simp [Xendit.Webhook.handler, hm]

/-- C7: for an existing order `k` and any status `s` other than `"SETTLED"` (a missing one
included), a valid `SETTLED` notification followed by a valid notification with status `s`
leaves the order first `PAID` and then `UNPAID`; and the table after the two calls is the
table after the second one alone, so only the last accepted notification counts. -/
theorem webhook_paid_is_reverted (env : Env) (db : List Checkout) (k : String) (c : Checkout)
    (s : Option String) (hc : prisma.checkout.findById db k = some c)
    (hs : s ≠ some "SETTLED") :
    (prisma.checkout.findById
        (Xendit.Webhook.handler env
          ⟨"POST", env.XENDIT_WEBHOOK_TOKEN, ⟨some k, some "SETTLED"⟩⟩ db).db k).map
        Checkout.status = some "PAID" ∧
      (prisma.checkout.findById
        (Xendit.Webhook.handler env ⟨"POST", env.XENDIT_WEBHOOK_TOKEN, ⟨some k, s⟩⟩
          (Xendit.Webhook.handler env
            ⟨"POST", env.XENDIT_WEBHOOK_TOKEN, ⟨some k, some "SETTLED"⟩⟩ db).db).db k).map
        Checkout.status = some "UNPAID" ∧
      (Xendit.Webhook.handler env ⟨"POST", env.XENDIT_WEBHOOK_TOKEN, ⟨some k, s⟩⟩
          (Xendit.Webhook.handler env
            ⟨"POST", env.XENDIT_WEBHOOK_TOKEN, ⟨some k, some "SETTLED"⟩⟩ db).db).db
        = (Xendit.Webhook.handler env ⟨"POST", env.XENDIT_WEBHOOK_TOKEN, ⟨some k, s⟩⟩ db).db := by
  have h1 := @webhook_handler_accepted env
    ⟨"POST", env.XENDIT_WEBHOOK_TOKEN, ⟨some k, some "SETTLED"⟩⟩ db k c rfl rfl rfl hc
  have hc' : prisma.checkout.findById (db.map (prisma.checkout.setStatus k "PAID")) k
      = some { c with status := "PAID" } := by
    simp [findById_map_setStatus, hc]
  have h2 := @webhook_handler_accepted env
    ⟨"POST", env.XENDIT_WEBHOOK_TOKEN, ⟨some k, s⟩⟩ _ k _ rfl rfl rfl hc'
  have h3 := @webhook_handler_accepted env
    ⟨"POST", env.XENDIT_WEBHOOK_TOKEN, ⟨some k, s⟩⟩ db k c rfl rfl rfl hc
  simp only [newStatus_settled, newStatus_other s hs] at h1 h2 h3
  rw [h1, h2, h3]
  simp only [map_setStatus_map_setStatus, findById_map_setStatus, hc]
  simp

/-- C7 at a concrete input: `ord-1` is settled, then a `FAILED` notification arrives. -/
theorem webhook_paid_is_reverted_witness :
    (prisma.checkout.findById
        (Xendit.Webhook.handler sampleEnv
          ⟨"POST", sampleEnv.XENDIT_WEBHOOK_TOKEN, ⟨some "ord-1", some "SETTLED"⟩⟩
          sampleOrders).db "ord-1").map
        Checkout.status = some "PAID" ∧
      (prisma.checkout.findById
        (Xendit.Webhook.handler sampleEnv
          ⟨"POST", sampleEnv.XENDIT_WEBHOOK_TOKEN, ⟨some "ord-1", some "FAILED"⟩⟩
          (Xendit.Webhook.handler sampleEnv
            ⟨"POST", sampleEnv.XENDIT_WEBHOOK_TOKEN, ⟨some "ord-1", some "SETTLED"⟩⟩
            sampleOrders).db).db "ord-1").map
        Checkout.status = some "UNPAID" ∧
      (Xendit.Webhook.handler sampleEnv
          ⟨"POST", sampleEnv.XENDIT_WEBHOOK_TOKEN, ⟨some "ord-1", some "FAILED"⟩⟩
          (Xendit.Webhook.handler sampleEnv
            ⟨"POST", sampleEnv.XENDIT_WEBHOOK_TOKEN, ⟨some "ord-1", some "SETTLED"⟩⟩
            sampleOrders).db).db
        = (Xendit.Webhook.handler sampleEnv
          ⟨"POST", sampleEnv.XENDIT_WEBHOOK_TOKEN, ⟨some "ord-1", some "FAILED"⟩⟩
          sampleOrders).db :=
  webhook_paid_is_reverted sampleEnv sampleOrders "ord-1"
    ⟨"ord-1", "UNPAID", [("total", "150000")]⟩ (some "FAILED") (by decide) (by decide)

/-! ## The admin endpoints -/

theorem notAdmin_eq_false_iff (token : Option Token) :
    notAdmin token = false ↔ ∃ t, token = some t ∧ t.role = some "ADMIN" := by
  cases token with
  | none => simp [notAdmin]
  | some t => simp [notAdmin]

/-- The company-contact delete handler, gate by gate. -/
theorem companyContacts_delete_gates (req : CompanyContacts.Delete.Request)
    (db : List CompanyContact) :
    (req.method ≠ "DELETE" →
        CompanyContacts.Delete.handler req db = ⟨⟨405, .empty⟩, db, []⟩) ∧
      (req.method = "DELETE" → notAdmin req.token = true →
        CompanyContacts.Delete.handler req db = ⟨⟨401, .error "Unauthorized"⟩, db, []⟩) ∧
      (req.method = "DELETE" → notAdmin req.token = false →
        (∀ c db', prisma.companyContact.delete db req.id = .ok (c, db') →
          CompanyContacts.Delete.handler req db
            = ⟨⟨200, .contact c⟩, db', [.companyContactDelete req.id]⟩) ∧
        (∀ e, prisma.companyContact.delete db req.id = .error e →
          CompanyContacts.Delete.handler req db
            = ⟨⟨500, .error "Internal server error"⟩, db, [.companyContactDelete req.id]⟩)) := by
  refine ⟨fun hm => ?_, fun hm ha => ?_, fun hm ha => ⟨fun c db' h => ?_, fun e h => ?_⟩⟩
  · simp [CompanyContacts.Delete.handler, hm]
  · simp [CompanyContacts.Delete.handler, hm, ha]
  · simp [CompanyContacts.Delete.handler, hm, ha, h]
  · simp [CompanyContacts.Delete.handler, hm, ha, h]

/-- The term-condition update handler, gate by gate. -/
theorem termConditions_update_gates (req : TermConditions.Update.Request)
    (db : List TermCondition) :
    (req.method ≠ "PUT" →
        TermConditions.Update.handler req db = ⟨⟨405, .empty⟩, db, []⟩) ∧
      (req.method = "PUT" → notAdmin req.token = true →
        TermConditions.Update.handler req db = ⟨⟨401, .message "Unauthorized"⟩, db, []⟩) ∧
      (req.method = "PUT" → notAdmin req.token = false →
        (falsy req.body.title = true ∨ falsy req.body.content = true) →
        TermConditions.Update.handler req db
          = ⟨⟨400, .error "Title and content are required"⟩, db, []⟩) ∧
      (req.method = "PUT" → notAdmin req.token = false →
        ∀ title content, req.body.title = some title → req.body.content = some content →
          title ≠ "" → content ≠ "" →
        (∀ t db', prisma.termCondition.update db req.id title content = .ok (t, db') →
          TermConditions.Update.handler req db
            = ⟨⟨200, .termCondition t⟩, db', [.termConditionUpdate req.id title content]⟩) ∧
        (∀ e, prisma.termCondition.update db req.id title content = .error e →
          TermConditions.Update.handler req db
            = ⟨⟨500, .error "Internal server error"⟩, db,
                [.termConditionUpdate req.id title content]⟩)) := by
  refine ⟨fun hm => ?_, fun hm ha => ?_, fun hm ha hf => ?_,
    fun hm ha title content ht hc hte hce => ⟨fun t db' h => ?_, fun e h => ?_⟩⟩
  · simp [TermConditions.Update.handler, hm]
  · simp [TermConditions.Update.handler, hm, ha]
  · cases ht : req.body.title with
    | none => simp [TermConditions.Update.handler, hm, ha, ht]
    | some title =>
      cases hc : req.body.content with
      | none => simp [TermConditions.Update.handler, hm, ha, ht, hc]
      | some content =>
        have : title = "" ∨ content = "" := by simpa [falsy, ht, hc] using hf
        simp [TermConditions.Update.handler, hm, ha, ht, hc, this]
  · simp [TermConditions.Update.handler, hm, ha, ht, hc, hte, hce, h]
  · simp [TermConditions.Update.handler, hm, ha, ht, hc, hte, hce, h]

theorem falsy_eq_false_iff (x : Option String) :
    falsy x = false ↔ ∃ s, x = some s ∧ s ≠ "" := by
  cases x with
  | none => simp [falsy]
  | some s => simp [falsy]

/-- C8: both admin handlers pass the gates in the order method, role, fields, ORM call.
For the company-contact delete (first four parts) and the term-condition update (last
five): an ORM call is issued only when the method is DELETE (resp. PUT), the session token
exists with role exactly `"ADMIN"` and (update) title and content are both non-empty
strings; a wrong method is answered 405, else a missing token or another role 401, else
(update) a missing or empty title or content 400, each with no ORM call and the table
unchanged; and when every gate passes exactly the one ORM call is issued, answered 200
with the affected row when it succeeds and 500 with the table unchanged when it fails. -/
theorem admin_endpoints_gate_order (dreq : CompanyContacts.Delete.Request)
    (contacts : List CompanyContact) (ureq : TermConditions.Update.Request)
    (terms : List TermCondition) :
    ((CompanyContacts.Delete.handler dreq contacts).ops ≠ [] →
        dreq.method = "DELETE" ∧ ∃ t, dreq.token = some t ∧ t.role = some "ADMIN") ∧
      (dreq.method ≠ "DELETE" →
        (CompanyContacts.Delete.handler dreq contacts).reply.status = 405 ∧
          (CompanyContacts.Delete.handler dreq contacts).db = contacts ∧
          (CompanyContacts.Delete.handler dreq contacts).ops = []) ∧
      (dreq.method = "DELETE" → (¬ ∃ t, dreq.token = some t ∧ t.role = some "ADMIN") →
        (CompanyContacts.Delete.handler dreq contacts).reply.status = 401 ∧
          (CompanyContacts.Delete.handler dreq contacts).db = contacts ∧
          (CompanyContacts.Delete.handler dreq contacts).ops = []) ∧
      (dreq.method = "DELETE" → (∃ t, dreq.token = some t ∧ t.role = some "ADMIN") →
        (CompanyContacts.Delete.handler dreq contacts).ops
            = [.companyContactDelete dreq.id] ∧
          (∀ c db', prisma.companyContact.delete contacts dreq.id = .ok (c, db') →
            (CompanyContacts.Delete.handler dreq contacts).reply = ⟨200, .contact c⟩ ∧
              (CompanyContacts.Delete.handler dreq contacts).db = db') ∧
          (∀ e, prisma.companyContact.delete contacts dreq.id = .error e →
            (CompanyContacts.Delete.handler dreq contacts).reply.status = 500 ∧
              (CompanyContacts.Delete.handler dreq contacts).db = contacts)) ∧
      ((TermConditions.Update.handler ureq terms).ops ≠ [] →
        ureq.method = "PUT" ∧ (∃ t, ureq.token = some t ∧ t.role = some "ADMIN") ∧
          (∃ title, ureq.body.title = some title ∧ title ≠ "") ∧
          (∃ content, ureq.body.content = some content ∧ content ≠ "")) ∧
      (ureq.method ≠ "PUT" →
        (TermConditions.Update.handler ureq terms).reply.status = 405 ∧
          (TermConditions.Update.handler ureq terms).db = terms ∧
          (TermConditions.Update.handler ureq terms).ops = []) ∧
      (ureq.method = "PUT" → (¬ ∃ t, ureq.token = some t ∧ t.role = some "ADMIN") →
        (TermConditions.Update.handler ureq terms).reply.status = 401 ∧
          (TermConditions.Update.handler ureq terms).db = terms ∧
          (TermConditions.Update.handler ureq terms).ops = []) ∧
      (ureq.method = "PUT" → (∃ t, ureq.token = some t ∧ t.role = some "ADMIN") →
        (¬ ((∃ title, ureq.body.title = some title ∧ title ≠ "") ∧
            (∃ content, ureq.body.content = some content ∧ content ≠ ""))) →
        (TermConditions.Update.handler ureq terms).reply.status = 400 ∧
          (TermConditions.Update.handler ureq terms).db = terms ∧
          (TermConditions.Update.handler ureq terms).ops = []) ∧
      (ureq.method = "PUT" → (∃ t, ureq.token = some t ∧ t.role = some "ADMIN") →
        ∀ title content, ureq.body.title = some title → title ≠ "" →
          ureq.body.content = some content → content ≠ "" →
        (TermConditions.Update.handler ureq terms).ops
            = [.termConditionUpdate ureq.id title content] ∧
          (∀ t db', prisma.termCondition.update terms ureq.id title content = .ok (t, db') →
            (TermConditions.Update.handler ureq terms).reply = ⟨200, .termCondition t⟩ ∧
              (TermConditions.Update.handler ureq terms).db = db') ∧
          (∀ e, prisma.termCondition.update terms ureq.id title content = .error e →
            (TermConditions.Update.handler ureq terms).reply.status = 500 ∧
              (TermConditions.Update.handler ureq terms).db = terms)) := by
  obtain ⟨d1, d2, d3⟩ := companyContacts_delete_gates dreq contacts
  obtain ⟨u1, u2, u3, u4⟩ := termConditions_update_gates ureq terms
  have dadm := notAdmin_eq_false_iff dreq.token
  have uadm := notAdmin_eq_false_iff ureq.token
  have dres : ∀ r : Except PrismaError (CompanyContact × List CompanyContact),
      (∃ c db', r = .ok (c, db')) ∨ ∃ e, r = .error e := by
    intro r
    cases r with
    | error e => exact Or.inr ⟨e, rfl⟩
    | ok p => exact Or.inl ⟨p.1, p.2, rfl⟩
  have ures : ∀ r : Except PrismaError (TermCondition × List TermCondition),
      (∃ c db', r = .ok (c, db')) ∨ ∃ e, r = .error e := by
    intro r
    cases r with
    | error e => exact Or.inr ⟨e, rfl⟩
    | ok p => exact Or.inl ⟨p.1, p.2, rfl⟩
  have dops : dreq.method = "DELETE" → notAdmin dreq.token = false →
      (CompanyContacts.Delete.handler dreq contacts).ops = [.companyContactDelete dreq.id] := by
    intro hm ha
    rcases dres (prisma.companyContact.delete contacts dreq.id) with ⟨c, db', h⟩ | ⟨e, h⟩
    · rw [(d3 hm ha).1 c db' h]
    · rw [(d3 hm ha).2 e h]
  have uops : ureq.method = "PUT" → notAdmin ureq.token = false →
      ∀ title content, ureq.body.title = some title → title ≠ "" →
        ureq.body.content = some content → content ≠ "" →
      (TermConditions.Update.handler ureq terms).ops
        = [.termConditionUpdate ureq.id title content] := by
    intro hm ha title content ht hte hc hce
    rcases ures (prisma.termCondition.update terms ureq.id title content) with
      ⟨c, db', h⟩ | ⟨e, h⟩
    · rw [(u4 hm ha title content ht hc hte hce).1 c db' h]
    · rw [(u4 hm ha title content ht hc hte hce).2 e h]
  refine ⟨?_, ?_, ?_, ?_, ?_, ?_, ?_, ?_, ?_⟩
  · intro hops
    by_cases hm : dreq.method = "DELETE"
    · refine ⟨hm, dadm.mp ?_⟩
      cases ha : notAdmin dreq.token with
      | false => rfl
      | true => exact absurd (by rw [d2 hm ha]) hops
    · exact absurd (by rw [d1 hm]) hops
  · intro hm
    rw [d1 hm]
    exact ⟨rfl, rfl, rfl⟩
  · intro hm ha
    have ha' : notAdmin dreq.token = true := by
      cases h : notAdmin dreq.token with
      | true => rfl
      | false => exact absurd (dadm.mp h) ha
    rw [d2 hm ha']
    exact ⟨rfl, rfl, rfl⟩
  · intro hm ha
    have ha' := dadm.mpr ha
    refine ⟨dops hm ha', fun c db' h => ?_, fun e h => ?_⟩
    · rw [(d3 hm ha').1 c db' h]
      exact ⟨rfl, rfl⟩
    · rw [(d3 hm ha').2 e h]
      exact ⟨rfl, rfl⟩
  · intro hops
    by_cases hm : ureq.method = "PUT"
    · cases ha : notAdmin ureq.token with
      | true => exact absurd (by rw [u2 hm ha]) hops
      | false =>
        cases ht : falsy ureq.body.title with
        | true => exact absurd (by rw [u3 hm ha (Or.inl ht)]) hops
        | false =>
          cases hc : falsy ureq.body.content with
          | true => exact absurd (by rw [u3 hm ha (Or.inr hc)]) hops
          | false =>
            exact ⟨hm, uadm.mp ha, (falsy_eq_false_iff _).mp ht, (falsy_eq_false_iff _).mp hc⟩
    · exact absurd (by rw [u1 hm]) hops
  · intro hm
    rw [u1 hm]
    exact ⟨rfl, rfl, rfl⟩
  · intro hm ha
    have ha' : notAdmin ureq.token = true := by
      cases h : notAdmin ureq.token with
      | true => rfl
      | false => exact absurd (uadm.mp h) ha
    rw [u2 hm ha']
    exact ⟨rfl, rfl, rfl⟩
  · intro hm ha hf
    have hf' : falsy ureq.body.title = true ∨ falsy ureq.body.content = true := by
      cases ht : falsy ureq.body.title with
      | true => exact Or.inl rfl
      | false =>
        cases hc : falsy ureq.body.content with
        | true => exact Or.inr rfl
        | false =>
          exact absurd ⟨(falsy_eq_false_iff _).mp ht, (falsy_eq_false_iff _).mp hc⟩ hf
    rw [u3 hm (uadm.mpr ha) hf']
    exact ⟨rfl, rfl, rfl⟩
  · intro hm ha title content ht hte hc hce
    have ha' := uadm.mpr ha
    refine ⟨uops hm ha' title content ht hte hc hce, fun t db' h => ?_, fun e h => ?_⟩
    · rw [(u4 hm ha' title content ht hc hte hce).1 t db' h]
      exact ⟨rfl, rfl⟩
    · rw [(u4 hm ha' title content ht hc hte hce).2 e h]
      exact ⟨rfl, rfl⟩

/-- C8 at a concrete input: an admin deletes contact `cc-1`, and a signed-in user who is
not an admin is refused the update before the body is looked at. -/
theorem admin_endpoints_gate_order_witness :
    ((CompanyContacts.Delete.handler ⟨"DELETE", some ⟨some "ADMIN"⟩, "cc-1"⟩
          sampleContacts).reply = ⟨200, .contact ⟨"cc-1", [("phone", "0811")]⟩⟩ ∧
        (CompanyContacts.Delete.handler ⟨"DELETE", some ⟨some "ADMIN"⟩, "cc-1"⟩
          sampleContacts).db = [⟨"cc-2", [("phone", "0822")]⟩]) ∧
      ((TermConditions.Update.handler ⟨"PUT", some ⟨some "USER"⟩, "tc-1", ⟨none, none⟩⟩
          sampleTerms).reply.status = 401 ∧
        (TermConditions.Update.handler ⟨"PUT", some ⟨some "USER"⟩, "tc-1", ⟨none, none⟩⟩
          sampleTerms).db = sampleTerms ∧
        (TermConditions.Update.handler ⟨"PUT", some ⟨some "USER"⟩, "tc-1", ⟨none, none⟩⟩
          sampleTerms).ops = []) :=
  ⟨((admin_endpoints_gate_order ⟨"DELETE", some ⟨some "ADMIN"⟩, "cc-1"⟩ sampleContacts
      ⟨"PUT", some ⟨some "USER"⟩, "tc-1", ⟨none, none⟩⟩ sampleTerms).2.2.2.1 rfl
      ⟨⟨some "ADMIN"⟩, rfl, rfl⟩).2.1 ⟨"cc-1", [("phone", "0811")]⟩
      [⟨"cc-2", [("phone", "0822")]⟩] rfl,
    (admin_endpoints_gate_order ⟨"DELETE", some ⟨some "ADMIN"⟩, "cc-1"⟩ sampleContacts
      ⟨"PUT", some ⟨some "USER"⟩, "tc-1", ⟨none, none⟩⟩ sampleTerms).2.2.2.2.2.2.1 rfl
      (by simp)⟩

/-! ## Registration: validation -/

theorem char_le_iff_toNat {c d : Char} : c ≤ d ↔ c.toNat ≤ d.toNat := by
  rw [Char.le_def, UInt32.le_def, BitVec.le_def]
  rfl

theorem isLetterOrDigit_toNat {c : Char} (h : Register.isLetterOrDigit c = true) :
    48 ≤ c.toNat ∧ c.toNat ≤ 122 := by
  simp only [Register.isLetterOrDigit, Register.isLetter, Register.isDigit, Bool.or_eq_true,
    Bool.and_eq_true, decide_eq_true_eq, char_le_iff_toNat] at h
  have hA : 'A'.toNat = 65 := rfl
  have hZ : 'Z'.toNat = 90 := rfl
  have ha : 'a'.toNat = 97 := rfl
  have hz : 'z'.toNat = 122 := rfl
  have h0 : '0'.toNat = 48 := rfl
  have h9 : '9'.toNat = 57 := rfl
  omega

theorem isLineTerminator_toNat {c : Char} (h : Register.isLineTerminator c = true) :
    c.toNat = 10 ∨ c.toNat = 13 ∨ c.toNat = 0x2028 ∨ c.toNat = 0x2029 := by
  simp only [Register.isLineTerminator, Bool.or_eq_true, decide_eq_true_eq] at h
  rcases h with ((h | h) | h) | h
  · exact Or.inl (by rw [h]; rfl)
  · exact Or.inr (Or.inl (by rw [h]; rfl))
  · exact Or.inr (Or.inr (Or.inl h))
  · exact Or.inr (Or.inr (Or.inr h))

theorem not_isLineTerminator_of_isLetterOrDigit {c : Char}
    (h : Register.isLetterOrDigit c = true) : Register.isLineTerminator c = false := by
  cases ht : Register.isLineTerminator c with
  | false => rfl
  | true =>
    have h1 := isLetterOrDigit_toNat h
    have h2 := isLineTerminator_toNat ht
    omega

theorem exists_of_dotStarThen (X : Char → Bool) (l : List Char)
    (h : Register.dotStarThen X l = true) : ∃ c ∈ l, X c = true := by
  induction l with
  | nil => simp [Register.dotStarThen] at h
  | cons c cs ih =>
    simp only [Register.dotStarThen, Bool.or_eq_true, Bool.and_eq_true] at h
    rcases h with h | ⟨_, h⟩
    · exact ⟨c, List.mem_cons_self _ _, h⟩
    · obtain ⟨d, hd, hX⟩ := ih h
      exact ⟨d, List.mem_cons_of_mem _ hd, hX⟩

theorem dotStarThen_of_exists (X : Char → Bool) (l : List Char)
    (hall : ∀ c ∈ l, Register.isLetterOrDigit c = true) (h : ∃ c ∈ l, X c = true) :
    Register.dotStarThen X l = true := by
  induction l with
  | nil => simp at h
  | cons c cs ih =>
    simp only [Register.dotStarThen, Bool.or_eq_true, Bool.and_eq_true]
    obtain ⟨d, hd, hX⟩ := h
    rcases List.mem_cons.mp hd with rfl | hd
    · exact Or.inl hX
    · refine Or.inr ⟨?_, ih (fun x hx => hall x (List.mem_cons_of_mem _ hx)) ⟨d, hd, hX⟩⟩
      simp [not_isLineTerminator_of_isLetterOrDigit (hall c (List.mem_cons_self _ _))]

/-- The regular expression accepts exactly the strings made of ASCII letters and digits
that hold at least one letter and at least one digit. -/
theorem passwordRegexTest_iff (password : String) :
    Register.passwordRegexTest password = true ↔
      (∀ c ∈ password.data, Register.isLetterOrDigit c = true) ∧
        (∃ c ∈ password.data, Register.isLetter c = true) ∧
        (∃ c ∈ password.data, Register.isDigit c = true) := by
  simp only [Register.passwordRegexTest, Bool.and_eq_true, List.all_eq_true]
  constructor
  · rintro ⟨⟨hl, hd⟩, _, hall⟩
    exact ⟨hall, exists_of_dotStarThen _ _ hl, exists_of_dotStarThen _ _ hd⟩
  · rintro ⟨hall, hl, hd⟩
    refine ⟨⟨dotStarThen_of_exists _ _ hall hl, dotStarThen_of_exists _ _ hall hd⟩, ?_, hall⟩
    obtain ⟨c, hc, _⟩ := hl
    cases hp : password.data with
    | nil => simp [hp] at hc
    | cons x xs => rfl

/-- On a string of ASCII letters and digits the JavaScript length is the number of
characters. -/
theorem length_of_isLetterOrDigit (password : String)
    (hall : ∀ c ∈ password.data, Register.isLetterOrDigit c = true) :
    Register.length password = password.length := by
  have key : ∀ l : List Char, (∀ c ∈ l, Register.isLetterOrDigit c = true) →
      (l.map (fun c => if c.toNat < 65536 then 1 else 2)).sum = l.length := by
    intro l
    induction l with
    | nil => intro _; rfl
    | cons c cs ih =>
      intro hl
      have hc := isLetterOrDigit_toNat (hl c (List.mem_cons_self _ _))
      have hlt : c.toNat < 65536 := by omega
      simp only [List.map_cons, List.sum_cons, hlt, if_true, List.length_cons]
      rw [ih (fun x hx => hl x (List.mem_cons_of_mem _ hx))]
      omega
  exact key password.data hall

/-- The handler on a POST whose three fields are strings, check by check. -/
theorem register_handler_steps (env : Env) (rt : Register.Runtime) (req : Register.Request)
    (db : List User) (n e p : String) (hm : req.method = "POST")
    (hn : req.body.name = some n) (he : req.body.email = some e)
    (hp : req.body.password = some p) :
    ((n = "" ∨ e = "" ∨ p = "") →
        Register.handler env rt req db
          = ⟨.ok ⟨400, .message "All fields are required"⟩, db, []⟩) ∧
      (¬ (n = "" ∨ e = "" ∨ p = "") → (Register.length p < 6 ∨ Register.length p > 20) →
        Register.handler env rt req db
          = ⟨.ok ⟨400, .message "Password must be between 6 and 20 characters"⟩, db, []⟩) ∧
      (¬ (n = "" ∨ e = "" ∨ p = "") → ¬ (Register.length p < 6 ∨ Register.length p > 20) →
        Register.passwordRegexTest p = false →
        Register.handler env rt req db
          = ⟨.ok ⟨400, .message "Password must contain both letters and numbers"⟩, db, []⟩) ∧
      (¬ (n = "" ∨ e = "" ∨ p = "") → ¬ (Register.length p < 6 ∨ Register.length p > 20) →
        Register.passwordRegexTest p = true →
        (∀ u, prisma.user.findFirst db e = some u →
          Register.handler env rt req db
            = ⟨.ok ⟨409, .message "User already exists"⟩, db, [.userFindFirst e]⟩) ∧
        (prisma.user.findFirst db e = none →
          (Register.handler env rt req db).db
              = db ++ [⟨rt.newId, n, e, Register.argon2.hash rt p,
                  if Register.endsWith e (Register.templateLiteral env.ADMIN_EMAIL)
                    then "ADMIN" else "USER"⟩] ∧
            (Register.handler env rt req db).ops
              = [.userFindFirst e, .userCreate n e (Register.argon2.hash rt p)
                  (if Register.endsWith e (Register.templateLiteral env.ADMIN_EMAIL)
                    then "ADMIN" else "USER")] ∧
            (Register.handler env rt req db).reply
              = (Register.jwt.sign rt rt.newId env.JWT_SECRET).map (fun token =>
                  ⟨201, .registered ⟨rt.newId, n, e, Register.argon2.hash rt p,
                    if Register.endsWith e (Register.templateLiteral env.ADMIN_EMAIL)
                      then "ADMIN" else "USER"⟩ token⟩))) := by
  refine ⟨fun h => ?_, fun h1 h2 => ?_, fun h1 h2 h3 => ?_,
    fun h1 h2 h3 => ⟨fun u hu => ?_, fun hu => ?_⟩⟩
  · simp [Register.handler, hm, hn, he, hp, h]
  · simp [Register.handler, hm, hn, he, hp, h1, h2]
  · simp [Register.handler, hm, hn, he, hp, h1, h2, h3]
  · simp [Register.handler, hm, hn, he, hp, h1, h2, h3, hu]
  · cases hj : Register.jwt.sign rt rt.newId env.JWT_SECRET <;>
      simp [Register.handler, hm, hn, he, hp, h1, h2, h3, hu, prisma.user.create, hj,
        Except.map]

/-- The two password checks of the handler pass exactly for a password of 6 to 20
characters, all ASCII letters or digits, with a letter and a digit among them. -/
theorem password_checks_iff (p : String) :
    (¬ (Register.length p < 6 ∨ Register.length p > 20) ∧
        Register.passwordRegexTest p = true) ↔
      (6 ≤ p.length ∧ p.length ≤ 20) ∧
        (∀ c ∈ p.data, Register.isLetter c = true ∨ Register.isDigit c = true) ∧
        (∃ c ∈ p.data, Register.isLetter c = true) ∧
        (∃ c ∈ p.data, Register.isDigit c = true) := by
  have hcls : (∀ c ∈ p.data, Register.isLetter c = true ∨ Register.isDigit c = true) ↔
      ∀ c ∈ p.data, Register.isLetterOrDigit c = true := by
    simp [Register.isLetterOrDigit]
  rw [passwordRegexTest_iff, hcls]
  constructor
  · rintro ⟨hlen, hall, hl, hd⟩
    rw [length_of_isLetterOrDigit p hall] at hlen
    exact ⟨by omega, hall, hl, hd⟩
  · rintro ⟨hlen, hall, hl, hd⟩
    rw [length_of_isLetterOrDigit p hall]
    exact ⟨by omega, hall, hl, hd⟩

/-- C9 with "characters" counted in characters throughout, at the inputs where the code
departs from it.  The password `a1😀😀` has 4 characters, so the first failing check
would be the length, but its `.length` is 6 and the code answers with the content
message; a password of 11 emoji has 11 characters, so the first failing check would be
the content, but its `.length` is 22 and the code answers with the length message. -/
theorem register_length_counts_utf16_units :
    ("a1😀😀".length = 4 ∧
        (Register.handler sampleEnv sampleRuntime shortEmojiRegistration sampleUsers).reply
          = .ok ⟨400, .message "Password must contain both letters and numbers"⟩ ∧
        (Register.handler sampleEnv sampleRuntime shortEmojiRegistration sampleUsers).reply
          ≠ .ok ⟨400, .message
              (if "a1😀😀".length < 6 ∨ "a1😀😀".length > 20 then
                "Password must be between 6 and 20 characters"
              else "Password must contain both letters and numbers")⟩) ∧
      ("😀😀😀😀😀😀😀😀😀😀😀".length = 11 ∧
        (Register.handler sampleEnv sampleRuntime longEmojiRegistration sampleUsers).reply
          = .ok ⟨400, .message "Password must be between 6 and 20 characters"⟩ ∧
        (Register.handler sampleEnv sampleRuntime longEmojiRegistration sampleUsers).reply
          ≠ .ok ⟨400, .message
              (if "😀😀😀😀😀😀😀😀😀😀😀".length < 6 ∨ "😀😀😀😀😀😀😀😀😀😀😀".length > 20 then
                "Password must be between 6 and 20 characters"
              else "Password must contain both letters and numbers")⟩) := by
  refine ⟨⟨by decide, rfl, fun h => ?_⟩, ⟨by decide, rfl, fun h => ?_⟩⟩
  · have h' : (Except.ok ⟨400, .message "Password must contain both letters and numbers"⟩ :
        Except String (Reply Register.ResBody))
        = .ok ⟨400, .message "Password must be between 6 and 20 characters"⟩ := h
    exact absurd (Except.ok.inj h') (by decide)
  · have h' : (Except.ok ⟨400, .message "Password must be between 6 and 20 characters"⟩ :
        Except String (Reply Register.ResBody))
        = .ok ⟨400, .message "Password must contain both letters and numbers"⟩ := h
    exact absurd (Except.ok.inj h') (by decide)

/-- C9, amended: on a POST whose name, email and password are strings, the handler reaches
the existing-user lookup if and only if the three are non-empty, the password has 6 to 20
characters, every one an ASCII letter or digit, with at least one letter and one digit
(and then its JavaScript `.length` is its number of characters).  Otherwise it issues no
ORM call, leaves the table unchanged and answers 400 with the message of the first
failing check: a missing field, then the length, where the length tested is the
JavaScript `.length` of the password, its number of UTF-16 code units, then the
character content. -/
theorem register_validation (env : Env) (rt : Register.Runtime) (req : Register.Request)
    (db : List User) (n e p : String) (hm : req.method = "POST")
    (hn : req.body.name = some n) (he : req.body.email = some e)
    (hp : req.body.password = some p) :
    ((Register.handler env rt req db).ops.head? = some (.userFindFirst e) ↔
        (n ≠ "" ∧ e ≠ "" ∧ p ≠ "") ∧ (6 ≤ p.length ∧ p.length ≤ 20) ∧
          (∀ c ∈ p.data, Register.isLetter c = true ∨ Register.isDigit c = true) ∧
          (∃ c ∈ p.data, Register.isLetter c = true) ∧
          (∃ c ∈ p.data, Register.isDigit c = true)) ∧
      ((Register.handler env rt req db).ops.head? ≠ some (.userFindFirst e) →
        (Register.handler env rt req db).ops = [] ∧
          (Register.handler env rt req db).db = db ∧
          (Register.handler env rt req db).reply = .ok ⟨400, .message
            (if n = "" ∨ e = "" ∨ p = "" then "All fields are required"
              else if Register.length p < 6 ∨ Register.length p > 20 then
                "Password must be between 6 and 20 characters"
              else "Password must contain both letters and numbers")⟩) ∧
      ((Register.handler env rt req db).ops.head? = some (.userFindFirst e) →
        Register.length p = p.length) := by
  obtain ⟨s1, s2, s3, s4⟩ := register_handler_steps env rt req db n e p hm hn he hp
  rw [← password_checks_iff p]
  suffices hmain :
      ((Register.handler env rt req db).ops.head? = some (.userFindFirst e) ↔
        (n ≠ "" ∧ e ≠ "" ∧ p ≠ "") ∧
          (¬ (Register.length p < 6 ∨ Register.length p > 20) ∧
            Register.passwordRegexTest p = true)) ∧
      ((Register.handler env rt req db).ops.head? ≠ some (.userFindFirst e) →
        (Register.handler env rt req db).ops = [] ∧
          (Register.handler env rt req db).db = db ∧
          (Register.handler env rt req db).reply = .ok ⟨400, .message
            (if n = "" ∨ e = "" ∨ p = "" then "All fields are required"
              else if Register.length p < 6 ∨ Register.length p > 20 then
                "Password must be between 6 and 20 characters"
              else "Password must contain both letters and numbers")⟩) from
    ⟨hmain.1, hmain.2, fun h =>
      length_of_isLetterOrDigit p ((passwordRegexTest_iff p).mp (hmain.1.mp h).2.2).1⟩
  by_cases h1 : n = "" ∨ e = "" ∨ p = ""
  · rw [s1 h1]
    refine ⟨⟨fun h => by simp at h, fun h => ?_⟩, fun _ => ⟨rfl, rfl, by simp [h1]⟩⟩
    obtain ⟨⟨hn', he', hp'⟩, _⟩ := h
    rcases h1 with h | h | h
    · exact absurd h hn'
    · exact absurd h he'
    · exact absurd h hp'
  · have hne : n ≠ "" ∧ e ≠ "" ∧ p ≠ "" := by
      refine ⟨fun h => h1 (Or.inl h), fun h => h1 (Or.inr (Or.inl h)),
        fun h => h1 (Or.inr (Or.inr h))⟩
    by_cases h2 : Register.length p < 6 ∨ Register.length p > 20
    · rw [s2 h1 h2]
      exact ⟨⟨fun h => by simp at h, fun h => absurd h2 h.2.1⟩,
        fun _ => ⟨rfl, rfl, by simp [h1, h2]⟩⟩
    · cases h3 : Register.passwordRegexTest p with
      | false =>
        rw [s3 h1 h2 h3]
        exact ⟨⟨fun h => by simp at h, fun h => by simp at h⟩,
          fun _ => ⟨rfl, rfl, by simp [h1, h2]⟩⟩
      | true =>
        have hhead : (Register.handler env rt req db).ops.head? = some (.userFindFirst e) := by
          cases hu : prisma.user.findFirst db e with
          | some u => rw [(s4 h1 h2 h3).1 u hu]; rfl
          | none => rw [((s4 h1 h2 h3).2 hu).2.1]; rfl
        exact ⟨⟨fun _ => ⟨hne, h2, rfl⟩, fun _ => hhead⟩, fun h => absurd hhead h⟩

/-- C9 at a concrete input: `koi2024` passes the checks, so the lookup is reached. -/
theorem register_validation_witness :
    (Register.handler sampleEnv sampleRuntime sampleRegistration sampleUsers).ops.head?
      = some (.userFindFirst "budi@example.com") :=
  (register_validation sampleEnv sampleRuntime sampleRegistration sampleUsers
    "Budi" "budi@example.com" "koi2024" rfl rfl rfl rfl).1.mpr (by decide)

/-! ## Registration: duplicates, role and stored password -/

theorem findFirst_eq_none_iff (db : List User) (e : String) :
    prisma.user.findFirst db e = none ↔ ∀ u ∈ db, u.email ≠ e := by
  simp [prisma.user.findFirst]

theorem findFirst_isSome_of_mem (db : List User) (e : String) (h : ∃ u ∈ db, u.email = e) :
    ∃ u, prisma.user.findFirst db e = some u := by
  cases hf : prisma.user.findFirst db e with
  | some u => exact ⟨u, rfl⟩
  | none =>
    obtain ⟨u, hu, hue⟩ := h
    exact absurd hue ((findFirst_eq_none_iff db e).mp hf u hu)

/-- A hash is never a password the regular expression accepts: it starts with `$`. -/
theorem argon2_hash_ne (rt : Register.Runtime) (p : String)
    (hre : Register.passwordRegexTest p = true) : Register.argon2.hash rt p ≠ p := by
  intro h
  have hall := ((passwordRegexTest_iff p).mp hre).1
  have hd : p.data = '$' :: ("argon2" ++ rt.argon2Encoded rt.salt p).data := by
    have := congrArg String.data h
    rw [← this]
    simp [Register.argon2.hash, String.data_append]
  have hmem : '$' ∈ p.data := by rw [hd]; exact List.mem_cons_self _ _
  exact absurd (hall _ hmem) (by decide)

theorem endsWith_iff (s t : String) : Register.endsWith s t = true ↔ t.data <:+ s.data := by
  simp [Register.endsWith]

/-- C10 as the code has it, at the input where it departs from the claim: with no
`JWT_SECRET` configured, a valid registration of a new address creates the user and then
throws in `jwt.sign`; the handler sends no 201. -/
theorem register_unset_jwt_secret_no_201 :
    prisma.user.findFirst sampleUsers "budi@example.com" = none ∧
      (Register.handler noJwtEnv sampleRuntime sampleRegistration sampleUsers).db
        = sampleUsers ++ [⟨"user-7", "Budi", "budi@example.com",
            Register.argon2.hash sampleRuntime "koi2024", "USER"⟩] ∧
      (Register.handler noJwtEnv sampleRuntime sampleRegistration sampleUsers).reply
        = .error "secretOrPrivateKey must have a value" ∧
      ∀ body, (Register.handler noJwtEnv sampleRuntime sampleRegistration sampleUsers).reply
        ≠ .ok ⟨201, body⟩ := by
  refine ⟨by decide, by decide, rfl, fun body h => ?_⟩
  have h' : (Except.error "secretOrPrivateKey must have a value" :
      Except String (Reply Register.ResBody)) = .ok ⟨201, body⟩ := h
  cases h'

/-- C10, amended: on a POST that passes validation, an existing user with exactly that
email gives 409 after the lookup alone, with the table unchanged; otherwise the lookup is
followed by one create, the table gains exactly one row with the given name and email,
the argon2 hash of the password (which differs from the password) and role `ADMIN` if the
email ends with the string form of `ADMIN_EMAIL` and `USER` if not, so always `ADMIN`
for an empty `ADMIN_EMAIL`; and the reply is 201 with that user and a token whenever
`JWT_SECRET` is set to a non-empty string. -/
theorem register_duplicate_and_role (env : Env) (rt : Register.Runtime)
    (req : Register.Request) (db : List User) (n e p : String) (hm : req.method = "POST")
    (hn : req.body.name = some n) (he : req.body.email = some e)
    (hp : req.body.password = some p) (hne : n ≠ "" ∧ e ≠ "" ∧ p ≠ "")
    (hlen : 6 ≤ Register.length p ∧ Register.length p ≤ 20)
    (hre : Register.passwordRegexTest p = true) :
    ((∃ u ∈ db, u.email = e) →
        (Register.handler env rt req db).reply = .ok ⟨409, .message "User already exists"⟩ ∧
          (Register.handler env rt req db).db = db ∧
          (Register.handler env rt req db).ops = [.userFindFirst e]) ∧
      ((∀ u ∈ db, u.email ≠ e) →
        ∃ user : User,
          (Register.handler env rt req db).db = db ++ [user] ∧
            (Register.handler env rt req db).ops
              = [.userFindFirst e, .userCreate n e user.password user.role] ∧
            user.name = n ∧ user.email = e ∧
            user.password = Register.argon2.hash rt p ∧ user.password ≠ p ∧
            (user.role = "ADMIN" ↔
              (Register.templateLiteral env.ADMIN_EMAIL).data <:+ e.data) ∧
            (user.role = "USER" ↔
              ¬ (Register.templateLiteral env.ADMIN_EMAIL).data <:+ e.data) ∧
            (env.ADMIN_EMAIL = some "" → user.role = "ADMIN") ∧
            (∀ secret, env.JWT_SECRET = some secret → secret ≠ "" →
              (Register.handler env rt req db).reply
                = .ok ⟨201, .registered user (rt.jwtEncoded secret user.id)⟩)) := by
  have h1 : ¬ (n = "" ∨ e = "" ∨ p = "") := by
    rintro (h | h | h)
    · exact hne.1 h
    · exact hne.2.1 h
    · exact hne.2.2 h
  have h2 : ¬ (Register.length p < 6 ∨ Register.length p > 20) := by omega
  obtain ⟨hdup, hnew⟩ := (register_handler_steps env rt req db n e p hm hn he hp).2.2.2 h1 h2 hre
  refine ⟨fun hex => ?_, fun hfresh => ?_⟩
  · obtain ⟨u, hu⟩ := findFirst_isSome_of_mem db e hex
    rw [hdup u hu]
    exact ⟨rfl, rfl, rfl⟩
  · obtain ⟨hdb, hops, hreply⟩ := hnew ((findFirst_eq_none_iff db e).mpr hfresh)
    refine ⟨_, hdb, hops, rfl, rfl, rfl, argon2_hash_ne rt p hre, ?_, ?_, ?_, ?_⟩
    · rw [← endsWith_iff]
      by_cases hs : Register.endsWith e (Register.templateLiteral env.ADMIN_EMAIL) = true
      · simp [hs]
      · simp [hs]
    · rw [← endsWith_iff]
      by_cases hs : Register.endsWith e (Register.templateLiteral env.ADMIN_EMAIL) = true
      · simp [hs]
      · simp [hs]
    · intro hempty
      have hs : Register.endsWith e (Register.templateLiteral env.ADMIN_EMAIL) = true := by
        rw [endsWith_iff, hempty]
        exact List.nil_suffix
      simp [hs]
    · intro secret hsec hnz
      rw [hreply, hsec]
      simp [Register.jwt.sign, hnz, Except.map]

/-- C10 (amended) at a concrete input: a new address outside the admin domain is stored
as `USER` with the hash as password and answered 201. -/
theorem register_duplicate_and_role_witness :
    ∃ user : User,
      (Register.handler sampleEnv sampleRuntime sampleRegistration sampleUsers).db
          = sampleUsers ++ [user] ∧
        (Register.handler sampleEnv sampleRuntime sampleRegistration sampleUsers).ops
          = [.userFindFirst "budi@example.com",
              .userCreate "Budi" "budi@example.com" user.password user.role] ∧
        user.name = "Budi" ∧ user.email = "budi@example.com" ∧
        user.password = Register.argon2.hash sampleRuntime "koi2024" ∧
        user.password ≠ "koi2024" ∧
        (user.role = "ADMIN" ↔
          (Register.templateLiteral sampleEnv.ADMIN_EMAIL).data <:+ "budi@example.com".data) ∧
        (user.role = "USER" ↔
          ¬ (Register.templateLiteral sampleEnv.ADMIN_EMAIL).data <:+ "budi@example.com".data) ∧
        (sampleEnv.ADMIN_EMAIL = some "" → user.role = "ADMIN") ∧
        (∀ secret, sampleEnv.JWT_SECRET = some secret → secret ≠ "" →
          (Register.handler sampleEnv sampleRuntime sampleRegistration sampleUsers).reply
            = .ok ⟨201, .registered user (sampleRuntime.jwtEncoded secret user.id)⟩) :=
  (register_duplicate_and_role sampleEnv sampleRuntime sampleRegistration sampleUsers
    "Budi" "budi@example.com" "koi2024" rfl rfl rfl rfl (by decide) (by decide)
    (by decide)).2 (by decide)

end AgroEcommerce
